import Mathlib

/-!
Verification of the wikifolio trading API client
(repository henrydatei/wikifolio-trading-api).

This file shallowly embeds the behaviour of `wikifolioTradingAPI/wikifolio.py`
and `classes/OrderStatusResponse.py`:

* The HTTP transport is modelled as an explicit server function passed to each
  operation; an operation returns the list of requests it issued together with
  its outcome, so "issues zero network calls" and request ordering become
  provable statements.
* A response that `raise_for_status` would reject (non-2xx / network failure)
  is modelled as the `fail` / `none` case of the server function; the aborted
  Python call (an uncaught `requests.HTTPError`, the spec's `TransportError`)
  is modelled as outcome `none` / a dedicated error constructor.
* JSON numeric values are modelled as rationals (the code does no arithmetic
  on them, only truthiness tests and serialization); byte-equivalence of
  serialized JSON field values is modelled as equality of `Jval` values.
* Python truthiness of an `Optional[float]` (`if stopPrice:`) is `pyTruthy`:
  `None` and `0.0` are falsy.  Truthiness of an `Optional[str]` (`if status:`)
  is `pyTruthyStr`: `None` and `""` are falsy.
* Python `str.lower` is `pyLower` (character-wise lowering of the string's
  characters).
* The unbounded `while` loop of the pagination code is embedded with an
  explicit fuel parameter bounding the number of loop iterations; under the
  well-formedness hypotheses of the claims the loop runs a fixed finite number
  of iterations, and the theorems assume fuel at least that bound.
-/

namespace WikifolioAPI

/-! ### JSON values and helper notions -/

/-- A JSON value as far as this client manipulates them: floats (modelled as
rationals), ints, strings and null. `dacite` distinguishes ints from floats
when checking field types, hence the two numeric constructors. -/
inductive Jval
  | num (q : ℚ)
  | int (n : Int)
  | str (s : String)
  | null
deriving DecidableEq

/-- Lookup of a key in a JSON object, modelled as an association list
(first binding wins, as in a Python dict built once). -/
def jLookup : List (String × Jval) → String → Option Jval
  | [], _ => none
  | (k, v) :: rest, key => if k = key then some v else jLookup rest key

/-- Python truthiness of an `Optional[float]` value: `None` and `0.0` are
falsy, every other float is truthy. -/
def pyTruthy (x : Option ℚ) : Bool :=
  match x with
  | none => false
  | some q => decide (q ≠ 0)

/-- Python truthiness of an `Optional[str]` value: `None` and `""` are falsy. -/
def pyTruthyStr (x : Option String) : Bool :=
  match x with
  | none => false
  | some s => decide (s ≠ "")

/-- Python `str.lower`, character-wise. -/
def pyLower (s : String) : String := ⟨s.data.map Char.toLower⟩

/-- A calendar date, as held by `datetime.date`. -/
structure Date where
  year : Nat
  month : Nat
  day : Nat
deriving DecidableEq

/-- Zero-padding to two digits, as `strftime` does for `%m` and `%d`. -/
def pad2 (n : Nat) : String := if n < 10 then "0" ++ toString n else toString n

/-- Zero-padding to four digits, as `strftime` does for `%Y`. -/
def pad4 (n : Nat) : String :=
  if n < 10 then "000" ++ toString n
  else if n < 100 then "00" ++ toString n
  else if n < 1000 then "0" ++ toString n
  else toString n

/-- The serialization `validUntilDate.strftime('%Y-%m-%d')` used by
`place_limit_order` (line 206) and `update_limit_order` (line 238). -/
def Date.toIso (d : Date) : String :=
  pad4 d.year ++ "-" ++ pad2 d.month ++ "-" ++ pad2 d.day

/-! ### Pagination engine

`list_wikifolios` (wikifolio.py lines 56–73), `list_wikifolio_underlyings`
(lines 107–125) and `list_wikifolio_orders` (lines 141–166) all inline the
same loop: request page 1, append `results`, and while the last response's
`pageNumber` is less than its `totalPages`, increment the requested page
number, re-request and append.  `r.raise_for_status()` aborts the whole call
on a non-2xx response. -/

/-- A page response body `{ pageNumber, totalPages, results }`. -/
structure PageResponse (α : Type) where
  pageNumber : Nat
  totalPages : Nat
  results : List α
deriving DecidableEq

/-- Outcome of one page request: a 2xx response with a body, or a response
that `raise_for_status` rejects (equivalently a network failure). -/
inductive PageResult (α : Type)
  | ok (r : PageResponse α)
  | fail
deriving DecidableEq

/-- One step of the pagination loop, starting at the request for `page` with
accumulated results `acc` and issued-request log `log`.  `fuel` bounds the
number of further loop iterations (the Python loop is unbounded; on
well-formed responses it performs exactly `totalPages - 1` iterations, and
every theorem below supplies at least that much fuel).  The returned pair is
(pages requested in order, `some` accumulated results on success / `none`
when the call aborted with the spec's `TransportError`). -/
def fetchPagesFrom (server : Nat → PageResult α) (fuel page : Nat)
    (acc : List α) (log : List Nat) : List Nat × Option (List α) :=
  match server page with
  | .fail => (log ++ [page], none)
  | .ok r =>
    if r.pageNumber < r.totalPages then
      match fuel with
      | 0 => (log ++ [page], none)
      | f + 1 => fetchPagesFrom server f (page + 1) (acc ++ r.results) (log ++ [page])
    else (log ++ [page], some (acc ++ r.results))

/-- The whole pagination protocol: request pages from page 1 (spec §4.2,
`fetchAllPages`). -/
def fetchAllPages (server : Nat → PageResult α) (fuel : Nat) :
    List Nat × Option (List α) :=
  fetchPagesFrom server fuel 1 [] []

/-- `list_wikifolios` (wikifolio.py lines 46–73): the pagination protocol
against the `/v1/wikifolios` endpoint.  The trailing `from_dict` mapping into
`WikifolioListItem` records is a per-item conversion that does not affect
request sequencing or item order, so items are kept abstract. -/
def list_wikifolios (server : Nat → PageResult α) (fuel : Nat) :
    List Nat × Option (List α) :=
  fetchAllPages server fuel

/-- `list_wikifolio_underlyings` (wikifolio.py lines 94–125): the pagination
protocol against `/v1/wikifolios/{symbol}/underlyings`; the symbol only
selects the endpoint. -/
def list_wikifolio_underlyings (wikifolioSymbol : String)
    (server : Nat → PageResult α) (fuel : Nat) : List Nat × Option (List α) :=
  fetchAllPages server fuel

/-! ### Order listing and its status filter -/

/-- The venue-defined order status vocabulary (wikifolio.py line 146). -/
def validStatuses : List String :=
  ["Inactive", "Waiting", "Active", "Evaluating", "Executing",
   "RequestingExecutionInformation", "PartiallyExecutedActive", "Executed",
   "PartiallyExecutedExecuted", "Deleted", "DeleteRequested", "Updated",
   "Obsolete", "Error", "Rejected", "Undone", "Abandoned"]

/-- A Python runtime error escaping an operation. -/
inductive PyError
  | keyError
deriving DecidableEq

/-- The query parameters of the orders listing request. -/
structure OrderParams where
  pageNumber : Nat
  status : Option String
deriving DecidableEq

/-- The params construction of `list_wikifolio_orders` (wikifolio.py lines
141–150): `params = {'pageNumber': 1}`; `if status:` (truthiness: `None` and
`""` skip the block); a recognised status is stored under `params['status']`;
an unrecognised one reaches `del params['status']`, which raises `KeyError`
because the key was never inserted. -/
def compute_order_params (status : Option String) : Except PyError OrderParams :=
  match status with
  | some s =>
    if s ≠ "" then
      if s ∈ validStatuses then .ok ⟨1, some s⟩
      else .error .keyError
    else .ok ⟨1, none⟩
  | none => .ok ⟨1, none⟩

/-- `list_wikifolio_orders` (wikifolio.py lines 127–166): build the params
(possibly raising `KeyError`), then run the pagination protocol against
`/v1/wikifolios/{symbol}/orders` with the computed status parameter attached
to every page request. -/
def list_wikifolio_orders (server : Option String → Nat → PageResult α)
    (wikifolioSymbol : String) (status : Option String) (fuel : Nat) :
    Except PyError (List Nat × Option (List α)) :=
  match compute_order_params status with
  | .error e => .error e
  | .ok p => .ok (fetchPagesFrom (server p.status) fuel p.pageNumber [] [])

/-! ### Spec-side descriptions of pagination runs -/

/-- The page numbers `start, start+1, …, start+n-1`. -/
def pageRange (start n : Nat) : List Nat :=
  match n with
  | 0 => []
  | m + 1 => start :: pageRange (start + 1) m

/-- Concatenation of the per-page results of pages `start, …, start+n-1` in
request order. -/
def concatPages (results : Nat → List α) (start n : Nat) : List α :=
  match n with
  | 0 => []
  | m + 1 => results start ++ concatPages results (start + 1) m

/-! ### Limit orders -/

/-- The request body sent by `place_limit_order` to `POST /v1/limitorders`
(wikifolio.py lines 201–210).  `stopPrice = none` models the key being absent
from the body. -/
structure LimitOrderRequest where
  wikifolioSymbol : String
  underlying : String
  amount : Int
  limitPrice : ℚ
  validUntilDate : String
  orderType : String
  stopPrice : Option ℚ
deriving DecidableEq

/-- Outcome of `place_limit_order`.  The code signals a validation failure by
logging an error and returning `None` before building any request (the spec's
`ValidationError`); a non-2xx response to the issued request makes
`raise_for_status` raise (the spec's `OrderError`/`TransportError`);
otherwise the venue's `orderId` is returned. -/
inductive OrderOutcome
  | validationError
  | transportError
  | placed (orderId : String)
deriving DecidableEq

/-- `place_limit_order` (wikifolio.py lines 168–219).  The server function
models `POST /v1/limitorders`: `some orderId` for a 2xx response, `none` for
one that `raise_for_status` rejects.  Returns the requests issued (as bodies)
and the outcome.  Note the truthiness tests on `stopPrice` (lines 187, 190,
209): a zero stop price behaves like an absent one. -/
def place_limit_order (server : LimitOrderRequest → Option String)
    (wikifolioSymbol underlying : String) (amount : Int) (limitPrice : ℚ)
    (validUntilDate : Date) (side : String) (stopPrice : Option ℚ) :
    List LimitOrderRequest × OrderOutcome :=
  let side := pyLower side
  if side ∉ (["buy", "sell"] : List String) then
    ([], .validationError)
  else if side = "sell" ∧ pyTruthy stopPrice = true then
    ([], .validationError)
  else
    let orderType :=
      if pyTruthy stopPrice = true ∧ side = "buy" then "BuyStopLimit"
      else if side = "buy" then "BuyLimit"
      else "SellLimit"
    let data : LimitOrderRequest :=
      { wikifolioSymbol := wikifolioSymbol, underlying := underlying,
        amount := amount, limitPrice := limitPrice,
        validUntilDate := validUntilDate.toIso, orderType := orderType,
        stopPrice := if pyTruthy stopPrice = true then stopPrice else none }
    let outcome : OrderOutcome :=
      match server data with
      | none => .transportError
      | some orderId => .placed orderId
    ([data], outcome)

/-- The request body built by `update_limit_order` (wikifolio.py lines
235–241) for `PUT /v1/limitorders/{orderId}`: `limitPrice`, `amount`,
`validUntilDate` always, `stopPrice` only when truthy.  The `amount`
parameter is annotated `int` in the source but not enforced at runtime; the
serialized value is whatever number the caller passed, so it is kept
numeric. -/
def update_limit_order_data (limitPrice : ℚ) (amount : ℚ) (validUntilDate : Date)
    (stopPrice : Option ℚ) : List (String × Jval) :=
  let data : List (String × Jval) :=
    [("limitPrice", .num limitPrice), ("amount", .num amount),
     ("validUntilDate", .str validUntilDate.toIso)]
  if pyTruthy stopPrice = true then
    data ++ [("stopPrice", .num (stopPrice.getD 0))]
  else data

/-! ### Quote orders -/

/-- The request body sent by `place_quote_order` to `POST /v1/quotes`
(wikifolio.py lines 313–318). -/
structure QuoteRequest where
  wikifolioSymbol : String
  underlying : String
  amount : Int
  orderType : String
deriving DecidableEq

/-- The request body sent by `place_quote_order` to `POST /v1/quoteorders`
(wikifolio.py lines 329–331). -/
structure QuoteOrderRequest where
  quoteId : String
deriving DecidableEq

/-- A request issued by `place_quote_order`, in order. -/
inductive QReq
  | quote (q : QuoteRequest)
  | quoteOrder (q : QuoteOrderRequest)
deriving DecidableEq

/-- Outcome of `place_quote_order`: validation failure (logged, `None`
returned, no request built), a rejected quote request (the spec's
`QuoteError`), a rejected quote-order commit (the spec's `OrderError`), or
the venue's `orderId`. -/
inductive QuoteOutcome
  | validationError
  | quoteError
  | orderError
  | placed (orderId : String)
deriving DecidableEq

/-- The side-to-order-type mapping of the quote path (wikifolio.py lines
304–307): `buy ↦ Buy`, `sell ↦ Sell` (an `if`/`elif` chain whose branches are
exhaustive once the side validation has passed). -/
def quote_order_type (side : String) : String :=
  if side = "buy" then "Buy" else "Sell"

/-- `place_quote_order` (wikifolio.py lines 285–338): validate the side, then
request a quote, then commit the returned `quoteId`.  Each server function
returns `some` body field on a 2xx response and `none` for one that
`raise_for_status` rejects.  Returns the requests issued in order and the
outcome. -/
def place_quote_order (quoteServer : QuoteRequest → Option String)
    (orderServer : QuoteOrderRequest → Option String)
    (wikifolioSymbol underlying : String) (amount : Int) (side : String) :
    List QReq × QuoteOutcome :=
  let side := pyLower side
  if side ∉ (["buy", "sell"] : List String) then
    ([], .validationError)
  else
    let qreq : QuoteRequest :=
      { wikifolioSymbol := wikifolioSymbol, underlying := underlying,
        amount := amount, orderType := quote_order_type side }
    match quoteServer qreq with
    | none => ([.quote qreq], .quoteError)
    | some quoteId =>
      let oreq : QuoteOrderRequest := { quoteId := quoteId }
      match orderServer oreq with
      | none => ([.quote qreq, .quoteOrder oreq], .orderError)
      | some orderId => ([.quote qreq, .quoteOrder oreq], .placed orderId)

/-! ### OrderStatusResponse and its construction from a response body -/

/-- The `OrderStatusResponse` dataclass (classes/OrderStatusResponse.py
lines 4–16).  Note the mutable-price fields are named `stop` and `limit`
(not `stopPrice` / `limitPrice`) and the record carries no
`validUntilDate`. -/
structure OrderStatusResponse where
  orderId : String
  orderStatus : String
  orderType : String
  amount : ℚ
  creationDate : String
  wikifolioSymbol : Option String := none
  executionPrice : Option ℚ := none
  statusDate : Option String := none
  reason : Option Int := none
  stop : Option ℚ := none
  limit : Option ℚ := none
deriving DecidableEq

/-- Required string field under dacite: present with a string value. -/
def jStr? : Option Jval → Option String
  | some (.str s) => some s
  | _ => none

/-- Required float field under dacite: present with a float value (an int
value fails dacite's `isinstance` check). -/
def jNum? : Option Jval → Option ℚ
  | some (.num q) => some q
  | _ => none

/-- Optional string field under dacite: absent or null yields the default
`None`; a string value is taken; any other value fails. -/
def jOptStr? : Option Jval → Option (Option String)
  | none => some none
  | some .null => some none
  | some (.str s) => some (some s)
  | some _ => none

/-- Optional float field under dacite. -/
def jOptNum? : Option Jval → Option (Option ℚ)
  | none => some none
  | some .null => some none
  | some (.num q) => some (some q)
  | some _ => none

/-- Optional int field under dacite. -/
def jOptInt? : Option Jval → Option (Option Int)
  | none => some none
  | some .null => some none
  | some (.int n) => some (some n)
  | some _ => none

/-- `from_dict(data_class=OrderStatusResponse, data=body)` (dacite), as used
at wikifolio.py lines 166 and 283: every field must parse with its declared
type, otherwise construction fails. -/
def OrderStatusResponse.from_dict (b : List (String × Jval)) :
    Option OrderStatusResponse :=
  match jStr? (jLookup b "orderId"), jStr? (jLookup b "orderStatus"),
        jStr? (jLookup b "orderType"), jNum? (jLookup b "amount"),
        jStr? (jLookup b "creationDate"), jOptStr? (jLookup b "wikifolioSymbol"),
        jOptNum? (jLookup b "executionPrice"), jOptStr? (jLookup b "statusDate"),
        jOptInt? (jLookup b "reason"), jOptNum? (jLookup b "stop"),
        jOptNum? (jLookup b "limit") with
  | some orderId, some orderStatus, some orderType, some amount,
    some creationDate, some wikifolioSymbol, some executionPrice,
    some statusDate, some reason, some stop, some limit =>
      some ⟨orderId, orderStatus, orderType, amount, creationDate,
            wikifolioSymbol, executionPrice, statusDate, reason, stop, limit⟩
  | _, _, _, _, _, _, _, _, _, _, _ => none

/-! ### Spec-side order-type mapping

Taken from the spec's words (§4.3): order-type selection keyed by the
normalized side and the stop price, to be compared with the selection the
code performs. -/

/-- The order-type mapping of the amended claim: keyed by the normalized side
and the truthiness of the stop price (a zero stop price counts as absent). -/
def expected_order_type (side : String) (stopPrice : Option ℚ) : String :=
  if side = "buy" then
    if pyTruthy stopPrice = true then "BuyStopLimit" else "BuyLimit"
  else "SellLimit"

/-! ### Concrete fixtures used by witnesses and counterexamples -/

/-- A concrete valid-until date. -/
def d0 : Date := ⟨2024, 1, 2⟩

/-- A limit-order endpoint that accepts every request. -/
def srvOk : LimitOrderRequest → Option String := fun _ => some "order-1"

/-- A quote endpoint that returns a quote for every request. -/
def qsrvOk : QuoteRequest → Option String := fun _ => some "quote-1"

/-- A quote endpoint that rejects every request. -/
def qsrvFail : QuoteRequest → Option String := fun _ => none

/-- A quote-order endpoint that accepts every commit. -/
def qosrvOk : QuoteOrderRequest → Option String := fun _ => some "order-2"

/-- A well-formed two-page listing endpoint. -/
def wfServer2 : Nat → PageResult String := fun i =>
  if i = 1 then .ok ⟨1, 2, ["a", "b"]⟩
  else if i = 2 then .ok ⟨2, 2, ["c"]⟩
  else .fail

/-- The per-page results of `wfServer2`. -/
def wfResults2 : Nat → List String := fun i =>
  if i = 1 then ["a", "b"] else if i = 2 then ["c"] else []

/-- The orders endpoint backed by `wfServer2` for every status parameter. -/
def owfServer2 : Option String → Nat → PageResult String := fun _ => wfServer2

/-- A two-page listing endpoint whose second page fails. -/
def failServer2 : Nat → PageResult String := fun i =>
  if i = 1 then .ok ⟨1, 2, ["a"]⟩ else .fail

/-- The orders endpoint backed by `failServer2` for every status parameter. -/
def ofailServer2 : Option String → Nat → PageResult String := fun _ => failServer2

/-- The per-page results of `failServer2` before the failure. -/
def failResults2 : Nat → List String := fun i => if i = 1 then ["a"] else []

/-- A single-page empty listing endpoint (`pageNumber = 1`, `totalPages = 0`,
no results). -/
def emptyServer : Nat → PageResult String := fun _ => .ok ⟨1, 0, []⟩

/-- The orders endpoint backed by `emptyServer`. -/
def oemptyServer : Option String → Nat → PageResult String := fun _ => emptyServer

/-- A listing endpoint whose first page has an empty results array but
reports a second page, which then carries an item. -/
def c8srv : Nat → PageResult String := fun i =>
  if i = 1 then .ok ⟨1, 2, []⟩
  else if i = 2 then .ok ⟨2, 2, ["a"]⟩
  else .fail

/-- A listing endpoint whose first page reports `totalPages = 0` but carries
a result item. -/
def c8srv0 : Nat → PageResult String := fun _ => .ok ⟨1, 0, ["b"]⟩

/-- A well-formed order-status body whose `stop` field is the float `0.0`. -/
def b0 : List (String × Jval) :=
  [("orderId", .str "o1"), ("orderStatus", .str "Active"),
   ("orderType", .str "BuyLimit"), ("amount", .num 100),
   ("creationDate", .str "2024-01-01"), ("stop", .num 0), ("limit", .num 5)]

/-- The record `from_dict` builds from `b0`. -/
def o0 : OrderStatusResponse :=
  { orderId := "o1", orderStatus := "Active", orderType := "BuyLimit",
    amount := 100, creationDate := "2024-01-01", stop := some 0,
    limit := some 5 }

/-- A well-formed order-status body whose `stop` field is the float `2.0`. -/
def b1 : List (String × Jval) :=
  [("orderId", .str "o1"), ("orderStatus", .str "Active"),
   ("orderType", .str "BuyLimit"), ("amount", .num 100),
   ("creationDate", .str "2024-01-01"), ("stop", .num 2), ("limit", .num 5)]

/-- The record `from_dict` builds from `b1`. -/
def o1 : OrderStatusResponse :=
  { orderId := "o1", orderStatus := "Active", orderType := "BuyLimit",
    amount := 100, creationDate := "2024-01-01", stop := some 2,
    limit := some 5 }

/-! ## Pagination lemmas -/

/-- A page request that fails aborts the fetch immediately. -/
theorem fetchPagesFrom_fail_step (server : Nat → PageResult α)
    (fuel page : Nat) (acc : List α) (log : List Nat)
    (h : server page = .fail) :
    fetchPagesFrom server fuel page acc log = (log ++ [page], none) := by
  rw [fetchPagesFrom, h]

/-- A page response whose `pageNumber` has reached `totalPages` ends the
fetch with the accumulated results. -/
theorem fetchPagesFrom_last_step (server : Nat → PageResult α)
    (fuel page : Nat) (acc : List α) (log : List Nat) (r : PageResponse α)
    (h : server page = .ok r) (hstop : r.totalPages ≤ r.pageNumber) :
    fetchPagesFrom server fuel page acc log
      = (log ++ [page], some (acc ++ r.results)) := by
  rw [fetchPagesFrom, h]
  simp only [if_neg (by omega : ¬ r.pageNumber < r.totalPages)]

/-- A page response with further pages continues the loop on the next page
number with the results appended. -/
theorem fetchPagesFrom_cont_step (server : Nat → PageResult α)
    (fuel page : Nat) (acc : List α) (log : List Nat) (r : PageResponse α)
    (h : server page = .ok r) (hcont : r.pageNumber < r.totalPages) :
    fetchPagesFrom server (fuel + 1) page acc log
      = fetchPagesFrom server fuel (page + 1) (acc ++ r.results) (log ++ [page]) := by
  rw [fetchPagesFrom, h]
  simp only [if_pos hcont]

/-- On a well-formed `k`-page server, the loop started at page `page ≤ k`
requests exactly pages `page, …, k` and accumulates their results in
order. -/
theorem fetchPagesFrom_wellformed (server : Nat → PageResult α) (k : Nat)
    (results : Nat → List α)
    (h : ∀ i, 1 ≤ i → i ≤ k → server i = .ok ⟨i, k, results i⟩) :
    ∀ fuel page acc log, 1 ≤ page → page ≤ k → k ≤ page + fuel →
      fetchPagesFrom server fuel page acc log
        = (log ++ pageRange page (k + 1 - page),
           some (acc ++ concatPages results page (k + 1 - page))) := by
  intro fuel
  induction fuel with
  | zero =>
    intro page acc log h1 h2 h3
    have hpk : page = k := by omega
    have hone : k + 1 - page = 1 := by omega
    rw [hone,
      fetchPagesFrom_last_step server 0 page acc log ⟨page, k, results page⟩
        (h page h1 h2) (by simpa using le_of_eq hpk.symm)]
    simp [pageRange, concatPages]
  | succ f ih =>
    intro page acc log h1 h2 h3
    by_cases hlt : page < k
    · rw [fetchPagesFrom_cont_step server f page acc log ⟨page, k, results page⟩
        (h page h1 h2) hlt]
      rw [ih (page + 1) (acc ++ results page) (log ++ [page])
        (by omega) (by omega) (by omega)]
      have hsplit : k + 1 - page = (k + 1 - (page + 1)) + 1 := by omega
      rw [hsplit]
      simp [pageRange, concatPages, List.append_assoc]
    · have hpk : page = k := by omega
      have hone : k + 1 - page = 1 := by omega
      rw [hone,
        fetchPagesFrom_last_step server (f + 1) page acc log ⟨page, k, results page⟩
          (h page h1 h2) (by simpa using le_of_eq hpk.symm)]
      simp [pageRange, concatPages]

/-- On a server that behaves well-formedly up to page `i - 1` (with further
pages announced) and fails on page `i`, the loop started at page `page ≤ i`
requests pages `page, …, i` and aborts, returning no items. -/
theorem fetchPagesFrom_failure (server : Nat → PageResult α) (k i : Nat)
    (results : Nat → List α)
    (hok : ∀ j, 1 ≤ j → j < i → server j = .ok ⟨j, k, results j⟩)
    (hik : i ≤ k) (hfail : server i = .fail) :
    ∀ fuel page acc log, 1 ≤ page → page ≤ i → i ≤ page + fuel →
      fetchPagesFrom server fuel page acc log
        = (log ++ pageRange page (i + 1 - page), none) := by
  intro fuel
  induction fuel with
  | zero =>
    intro page acc log h1 h2 h3
    have hpi : page = i := by omega
    have hone : i + 1 - page = 1 := by omega
    subst hpi
    rw [hone, fetchPagesFrom_fail_step server 0 page acc log hfail]
    simp [pageRange]
  | succ f ih =>
    intro page acc log h1 h2 h3
    by_cases hlt : page < i
    · rw [fetchPagesFrom_cont_step server f page acc log ⟨page, k, results page⟩
        (hok page h1 hlt) (by simpa using by omega : (⟨page, k, results page⟩ : PageResponse α).pageNumber < (⟨page, k, results page⟩ : PageResponse α).totalPages)]
      rw [ih (page + 1) (acc ++ results page) (log ++ [page])
        (by omega) (by omega) (by omega)]
      have hsplit : i + 1 - page = (i + 1 - (page + 1)) + 1 := by omega
      rw [hsplit]
      simp [pageRange, List.append_assoc]
    · have hpi : page = i := by omega
      have hone : i + 1 - page = 1 := by omega
      subst hpi
      rw [hone, fetchPagesFrom_fail_step server (f + 1) page acc log hfail]
      simp [pageRange]

/-- The params construction always yields `pageNumber = 1` when it does not
raise. -/
theorem compute_order_params_pageNumber (status : Option String) (p : OrderParams)
    (hp : compute_order_params status = .ok p) : p.pageNumber = 1 := by
  cases status with
  | none => simp [compute_order_params] at hp; rw [← hp]
  | some s =>
    by_cases hs : s = "" <;> simp [compute_order_params, hs] at hp
    · rw [← hp]
    · by_cases hv : s ∈ validStatuses <;> simp [hv] at hp
      rw [← hp]

/-! ## Claim theorems -/

/-- C2: on any well-formed page sequence where each response to the request
for page `i` reports `pageNumber = i` and a constant `totalPages = k ≥ 1`,
each paginated fetch (`list_wikifolios`, `list_wikifolio_underlyings`,
`list_wikifolio_orders`) issues exactly `k` requests, for pages `1` through
`k` in increasing order, and returns the concatenation of each page's
results in request order. -/
theorem paginated_fetch_wellformed (k : Nat) (hk : 1 ≤ k)
    (server : Nat → PageResult α) (results : Nat → List α)
    (h : ∀ i, 1 ≤ i → i ≤ k → server i = .ok ⟨i, k, results i⟩)
    (fuel : Nat) (hf : k ≤ fuel + 1) (wikifolioSymbol : String) :
    list_wikifolios server fuel
      = (pageRange 1 k, some (concatPages results 1 k)) ∧
    list_wikifolio_underlyings wikifolioSymbol server fuel
      = (pageRange 1 k, some (concatPages results 1 k)) ∧
    ∀ (oserver : Option String → Nat → PageResult α) (status : Option String)
      (p : OrderParams), compute_order_params status = .ok p →
      (∀ i, 1 ≤ i → i ≤ k → oserver p.status i = .ok ⟨i, k, results i⟩) →
      list_wikifolio_orders oserver wikifolioSymbol status fuel
        = .ok (pageRange 1 k, some (concatPages results 1 k)) := by
  have hmain : fetchPagesFrom server fuel 1 [] []
      = (pageRange 1 k, some (concatPages results 1 k)) := by
    have := fetchPagesFrom_wellformed server k results h fuel 1 [] []
      (le_refl 1) hk (by omega)
    simpa using this
  refine ⟨hmain, hmain, ?_⟩
  intro oserver status p hp hos
  have hmain' : fetchPagesFrom (oserver p.status) fuel 1 [] []
      = (pageRange 1 k, some (concatPages results 1 k)) := by
    have := fetchPagesFrom_wellformed (oserver p.status) k results hos fuel 1 [] []
      (le_refl 1) hk (by omega)
    simpa using this
  rw [list_wikifolio_orders, hp]
  show Except.ok (fetchPagesFrom (oserver p.status) fuel p.pageNumber [] []) = _
  rw [compute_order_params_pageNumber status p hp, hmain']

/-- C2 witness: a concrete two-page listing. -/
theorem paginated_fetch_wellformed_witness :
    list_wikifolios wfServer2 2 = ([1, 2], some ["a", "b", "c"]) ∧
    list_wikifolio_underlyings "WF1" wfServer2 2 = ([1, 2], some ["a", "b", "c"]) ∧
    list_wikifolio_orders owfServer2 "WF1" none 2
      = .ok ([1, 2], some ["a", "b", "c"]) := by
  have h := paginated_fetch_wellformed 2 (by decide) wfServer2 wfResults2
    (by intro i h1 h2; interval_cases i <;> rfl) 2 (by decide) "WF1"
  exact ⟨h.1, h.2.1,
    h.2.2 owfServer2 none ⟨1, none⟩ rfl (by intro i h1 h2; interval_cases i <;> rfl)⟩

/-- C7: if the server responds well-formedly (announcing `k` pages) up to
page `i - 1` and the request for page `i` fails, every paginated fetch
requests exactly pages `1, …, i` and aborts with the spec's
`TransportError`, returning no items at all — the accumulated pages are
discarded, not returned as a partial list. -/
theorem paginated_fetch_transport_failure (k i : Nat) (h1 : 1 ≤ i) (hik : i ≤ k)
    (server : Nat → PageResult α) (results : Nat → List α)
    (hok : ∀ j, 1 ≤ j → j < i → server j = .ok ⟨j, k, results j⟩)
    (hfail : server i = .fail) (fuel : Nat) (hf : i ≤ fuel + 1)
    (wikifolioSymbol : String) :
    list_wikifolios server fuel = (pageRange 1 i, none) ∧
    list_wikifolio_underlyings wikifolioSymbol server fuel
      = (pageRange 1 i, none) ∧
    ∀ (oserver : Option String → Nat → PageResult α) (status : Option String)
      (p : OrderParams), compute_order_params status = .ok p →
      (∀ j, 1 ≤ j → j < i → oserver p.status j = .ok ⟨j, k, results j⟩) →
      oserver p.status i = .fail →
      list_wikifolio_orders oserver wikifolioSymbol status fuel
        = .ok (pageRange 1 i, none) := by
  have hmain : fetchPagesFrom server fuel 1 [] [] = (pageRange 1 i, none) := by
    have := fetchPagesFrom_failure server k i results hok hik hfail fuel 1 [] []
      (le_refl 1) h1 (by omega)
    simpa using this
  refine ⟨hmain, hmain, ?_⟩
  intro oserver status p hp hos hofail
  have hmain' : fetchPagesFrom (oserver p.status) fuel 1 [] []
      = (pageRange 1 i, none) := by
    have := fetchPagesFrom_failure (oserver p.status) k i results hos hik hofail
      fuel 1 [] [] (le_refl 1) h1 (by omega)
    simpa using this
  rw [list_wikifolio_orders, hp]
  show Except.ok (fetchPagesFrom (oserver p.status) fuel p.pageNumber [] []) = _
  rw [compute_order_params_pageNumber status p hp, hmain']

/-- C7 witness: a two-page listing whose second page fails. -/
theorem paginated_fetch_transport_failure_witness :
    list_wikifolios failServer2 2 = ([1, 2], none) ∧
    list_wikifolio_underlyings "WF1" failServer2 2 = ([1, 2], none) ∧
    list_wikifolio_orders ofailServer2 "WF1" none 2 = .ok ([1, 2], none) := by
  have h := paginated_fetch_transport_failure 2 2 (by decide) (by decide)
    failServer2 failResults2 (by intro j hj1 hj2; interval_cases j <;> rfl) rfl
    2 (by decide) "WF1"
  exact ⟨h.1, h.2.1,
    h.2.2 ofailServer2 none ⟨1, none⟩ rfl
      (by intro j hj1 hj2; interval_cases j <;> rfl) rfl⟩

/-- C8 counterexample: the claim as stated is false.  First input: a page-1
response with an empty results array but `totalPages = 2` does not stop the
fetch — a second request is issued and its item is returned, so neither
"exactly one request" nor "empty sequence" holds.  Second input: a page-1
response reporting `totalPages = 0` but carrying a result item does issue
exactly one request, yet returns that item rather than the empty
sequence. -/
theorem paginated_fetch_empty_counterexample :
    (list_wikifolios c8srv 2 = ([1, 2], some ["a"]) ∧
      list_wikifolios c8srv 2 ≠ ([1], some [])) ∧
    (list_wikifolios c8srv0 5 = ([1], some ["b"]) ∧
      list_wikifolios c8srv0 5 ≠ ([1], some [])) :=
  ⟨⟨rfl, by decide⟩, ⟨rfl, by decide⟩⟩

/-- C8 amended: a page-1 response whose results array is empty and whose
reported `totalPages` does not exceed its reported `pageNumber` (in
particular the well-formed empty listing: `pageNumber = 1` with
`totalPages = 0` or `1`) makes every paginated fetch return the empty
sequence after exactly one request.  An empty results array alone does not
stop pagination, and `totalPages = 0` alone does not make the result
empty. -/
theorem paginated_fetch_empty_first_page (server : Nat → PageResult α)
    (r : PageResponse α) (hr : server 1 = .ok r)
    (hstop : r.totalPages ≤ r.pageNumber) (hempty : r.results = [])
    (fuel : Nat) (wikifolioSymbol : String) :
    list_wikifolios server fuel = ([1], some []) ∧
    list_wikifolio_underlyings wikifolioSymbol server fuel = ([1], some []) ∧
    ∀ (oserver : Option String → Nat → PageResult α) (status : Option String)
      (p : OrderParams), compute_order_params status = .ok p →
      oserver p.status 1 = .ok r →
      list_wikifolio_orders oserver wikifolioSymbol status fuel
        = .ok ([1], some []) := by
  have hmain : fetchPagesFrom server fuel 1 [] [] = ([1], some []) := by
    rw [fetchPagesFrom_last_step server fuel 1 [] [] r hr hstop, hempty]
    rfl
  refine ⟨hmain, hmain, ?_⟩
  intro oserver status p hp hos
  have hmain' : fetchPagesFrom (oserver p.status) fuel 1 [] [] = ([1], some []) := by
    rw [fetchPagesFrom_last_step (oserver p.status) fuel 1 [] [] r hos hstop, hempty]
    rfl
  rw [list_wikifolio_orders, hp]
  show Except.ok (fetchPagesFrom (oserver p.status) fuel p.pageNumber [] []) = _
  rw [compute_order_params_pageNumber status p hp, hmain']

/-- C8 witness: the empty single-page listing. -/
theorem paginated_fetch_empty_first_page_witness :
    list_wikifolios emptyServer 3 = ([1], some []) ∧
    list_wikifolio_underlyings "WF1" emptyServer 3 = ([1], some []) ∧
    list_wikifolio_orders oemptyServer "WF1" none 3 = .ok ([1], some []) := by
  have h := paginated_fetch_empty_first_page emptyServer ⟨1, 0, []⟩ rfl
    (by decide) rfl 3 "WF1"
  exact ⟨h.1, h.2.1, h.2.2 oemptyServer none ⟨1, none⟩ rfl rfl⟩

/-- C1: calling `list_wikifolio_orders` with a status filter outside the
venue vocabulary is, contrary to the spec, not silently dropped: the code
reaches `del params['status']` with no such key in the dict and raises
`KeyError` before any request is issued. -/
theorem list_orders_unknown_status_keyerror
    (server : Option String → Nat → PageResult α) (wikifolioSymbol : String)
    (fuel : Nat) :
    list_wikifolio_orders server wikifolioSymbol (some "NotARealStatus") fuel
      = .error .keyError := rfl

/-- C10: a status filter equal to the empty string is falsy, so the whole
filter block is skipped exactly as for `None`: no error, no status parameter
on any page request, and the same unfiltered listing. -/
theorem list_orders_empty_status_like_none
    (server : Option String → Nat → PageResult α) (wikifolioSymbol : String)
    (fuel : Nat) :
    list_wikifolio_orders server wikifolioSymbol (some "") fuel
      = list_wikifolio_orders server wikifolioSymbol none fuel ∧
    list_wikifolio_orders server wikifolioSymbol (some "") fuel
      = .ok (fetchPagesFrom (server none) fuel 1 [] []) :=
  ⟨rfl, rfl⟩

/-- C3: a side string that does not normalize case-insensitively to `buy` or
`sell` makes `place_limit_order` fail with the validation error (the logged
early `return`) with zero requests issued, and the identical check makes
`place_quote_order` do the same. -/
theorem invalid_side_validation (lserver : LimitOrderRequest → Option String)
    (quoteServer : QuoteRequest → Option String)
    (orderServer : QuoteOrderRequest → Option String)
    (wikifolioSymbol underlying : String) (amount : Int) (limitPrice : ℚ)
    (validUntilDate : Date) (stopPrice : Option ℚ) (side : String)
    (h : pyLower side ∉ (["buy", "sell"] : List String)) :
    place_limit_order lserver wikifolioSymbol underlying amount limitPrice
      validUntilDate side stopPrice = ([], .validationError) ∧
    place_quote_order quoteServer orderServer wikifolioSymbol underlying
      amount side = ([], .validationError) := by
  constructor
  · simp [place_limit_order, h]
  · simp [place_quote_order, h]

/-- C3 witness: the side string `hold`. -/
theorem invalid_side_validation_witness :
    place_limit_order srvOk "WF1" "DE0001" 1 5 d0 "hold" none
      = ([], .validationError) ∧
    place_quote_order qsrvOk qosrvOk "WF1" "DE0001" 1 "hold"
      = ([], .validationError) :=
  invalid_side_validation srvOk qsrvOk qosrvOk "WF1" "DE0001" 1 5 d0 none
    "hold" (by decide)

/-- C4 counterexample: `place_limit_order` with side `sell` and the non-null
stop price `0.0` does not fail validation — `if side == 'sell' and
stopPrice:` treats `0.0` as falsy — so one request is issued and the order
is placed. -/
theorem sell_zero_stop_counterexample :
    (place_limit_order srvOk "WF1" "DE0001" 1 5 d0 "sell" (some 0)).1.length = 1 ∧
    (place_limit_order srvOk "WF1" "DE0001" 1 5 d0 "sell" (some 0)).2
      = .placed "order-1" :=
  ⟨rfl, rfl⟩

/-- C4 amended: side normalizing to `sell` together with a non-null and
nonzero (truthy) stop price fails with the validation error before any
request is sent; a zero stop price is treated as absent and the order
proceeds. -/
theorem sell_truthy_stop_validation (server : LimitOrderRequest → Option String)
    (wikifolioSymbol underlying : String) (amount : Int) (limitPrice : ℚ)
    (validUntilDate : Date) (side : String) (stopPrice : Option ℚ) (q : ℚ)
    (hside : pyLower side = "sell") (hq : stopPrice = some q) (hq0 : q ≠ 0) :
    place_limit_order server wikifolioSymbol underlying amount limitPrice
      validUntilDate side stopPrice = ([], .validationError) := by
  subst hq
  have ht : pyTruthy (some q) = true := by simp [pyTruthy, hq0]
  simp [place_limit_order, hside, ht]

/-- C4 witness: side `SELL` with stop price `1.0`. -/
theorem sell_truthy_stop_validation_witness :
    place_limit_order srvOk "WF1" "DE0001" 1 5 d0 "SELL" (some 1)
      = ([], .validationError) :=
  sell_truthy_stop_validation srvOk "WF1" "DE0001" 1 5 d0 "SELL" (some 1) 1
    (by decide) rfl (by decide)

/-- C5 counterexample: with side `buy` and the present (but zero) stop price
`0.0`, the issued request carries order type `BuyLimit`, not the
`BuyStopLimit` the claim derives for every present stop price. -/
theorem limit_order_type_zero_stop_counterexample :
    (place_limit_order srvOk "WF1" "DE0001" 1 5 d0 "buy" (some 0)).1.map
        (fun r => r.orderType) = ["BuyLimit"] ∧
    ("BuyLimit" : String) ≠ "BuyStopLimit" :=
  ⟨rfl, by decide⟩

/-- C5 amended: for every accepted `place_limit_order` call, the `orderType`
of the issued request is keyed on the normalized side and the truthiness of
the stop price: truthy stop price and `buy` gives `BuyStopLimit`; `buy`
with an absent or zero stop price gives `BuyLimit`; `sell` gives
`SellLimit`. -/
theorem limit_order_type_selection (server : LimitOrderRequest → Option String)
    (wikifolioSymbol underlying : String) (amount : Int) (limitPrice : ℚ)
    (validUntilDate : Date) (side : String) (stopPrice : Option ℚ)
    (hside : pyLower side = "buy" ∨ pyLower side = "sell")
    (hacc : ¬ (pyLower side = "sell" ∧ pyTruthy stopPrice = true)) :
    (place_limit_order server wikifolioSymbol underlying amount limitPrice
        validUntilDate side stopPrice).1.map (fun r => r.orderType)
      = [expected_order_type (pyLower side) stopPrice] := by
  rcases hside with hb | hs
  · by_cases ht : pyTruthy stopPrice = true <;>
      simp [place_limit_order, expected_order_type, hb, ht]
  · have ht : ¬ pyTruthy stopPrice = true := fun ht => hacc ⟨hs, ht⟩
    simp [place_limit_order, expected_order_type, hs, ht]

/-- C5 witness: the three branches of the mapping on concrete calls. -/
theorem limit_order_type_selection_witness :
    (place_limit_order srvOk "WF1" "DE0001" 1 5 d0 "buy" (some 5)).1.map
        (fun r => r.orderType) = ["BuyStopLimit"] ∧
    (place_limit_order srvOk "WF1" "DE0001" 1 5 d0 "buy" none).1.map
        (fun r => r.orderType) = ["BuyLimit"] ∧
    (place_limit_order srvOk "WF1" "DE0001" 1 5 d0 "sell" none).1.map
        (fun r => r.orderType) = ["SellLimit"] :=
  ⟨limit_order_type_selection srvOk "WF1" "DE0001" 1 5 d0 "buy" (some 5)
      (by decide) (by decide),
   limit_order_type_selection srvOk "WF1" "DE0001" 1 5 d0 "buy" none
      (by decide) (by decide),
   limit_order_type_selection srvOk "WF1" "DE0001" 1 5 d0 "sell" none
      (by decide) (by decide)⟩

/-- C6: with a valid side, `place_quote_order` issues exactly two requests
in order — the quote request, then the quote-order commit — when both
succeed; when the quote request fails, it issues exactly that one request,
never attempts the commit, and fails with the spec's `QuoteError`. -/
theorem quote_order_two_phase (quoteServer : QuoteRequest → Option String)
    (orderServer : QuoteOrderRequest → Option String)
    (wikifolioSymbol underlying : String) (amount : Int) (side : String)
    (hside : pyLower side ∈ (["buy", "sell"] : List String)) :
    (∀ quoteId orderId,
        quoteServer ⟨wikifolioSymbol, underlying, amount,
            quote_order_type (pyLower side)⟩ = some quoteId →
        orderServer ⟨quoteId⟩ = some orderId →
        place_quote_order quoteServer orderServer wikifolioSymbol underlying
            amount side
          = ([.quote ⟨wikifolioSymbol, underlying, amount,
                quote_order_type (pyLower side)⟩, .quoteOrder ⟨quoteId⟩],
             .placed orderId)) ∧
    (quoteServer ⟨wikifolioSymbol, underlying, amount,
          quote_order_type (pyLower side)⟩ = none →
        place_quote_order quoteServer orderServer wikifolioSymbol underlying
            amount side
          = ([.quote ⟨wikifolioSymbol, underlying, amount,
                quote_order_type (pyLower side)⟩], .quoteError)) := by
  constructor
  · intro quoteId orderId hq ho
    simp [place_quote_order, hside, hq, ho]
  · intro hq
    simp [place_quote_order, hside, hq]

/-- C6 witness: a successful two-phase run and a failing quote phase on
concrete servers. -/
theorem quote_order_two_phase_witness :
    place_quote_order qsrvOk qosrvOk "WF1" "DE0001" 1 "buy"
      = ([.quote ⟨"WF1", "DE0001", 1, "Buy"⟩, .quoteOrder ⟨"quote-1"⟩],
         .placed "order-2") ∧
    place_quote_order qsrvFail qosrvOk "WF1" "DE0001" 1 "buy"
      = ([.quote ⟨"WF1", "DE0001", 1, "Buy"⟩], .quoteError) :=
  ⟨(quote_order_two_phase qsrvOk qosrvOk "WF1" "DE0001" 1 "buy"
      (by decide)).1 "quote-1" "order-2" rfl rfl,
   (quote_order_two_phase qsrvFail qosrvOk "WF1" "DE0001" 1 "buy"
      (by decide)).2 rfl⟩

/-! ## Round-trip lemmas for the order-status record -/

/-- Inversion of the required-float parse. -/
theorem jNum?_eq_some {x : Option Jval} {q : ℚ} (h : jNum? x = some q) :
    x = some (.num q) := by
  cases x with
  | none => simp [jNum?] at h
  | some v => cases v <;> simp_all [jNum?]

/-- Inversion of the optional-float parse producing a value. -/
theorem jOptNum?_eq_some_some {x : Option Jval} {q : ℚ}
    (h : jOptNum? x = some (some q)) : x = some (.num q) := by
  cases x with
  | none => simp [jOptNum?] at h
  | some v => cases v <;> simp_all [jOptNum?]

/-- Inversion of the optional-float parse producing the default. -/
theorem jOptNum?_eq_some_none {x : Option Jval} (h : jOptNum? x = some none) :
    x = none ∨ x = some .null := by
  cases x with
  | none => exact Or.inl rfl
  | some v => cases v <;> simp_all [jOptNum?]

/-- What a successful `from_dict` says about the body: the `amount`, `limit`
and `stop` JSON fields of the body agree with the constructed record's
fields. -/
theorem from_dict_fields (b : List (String × Jval)) (o : OrderStatusResponse)
    (hb : OrderStatusResponse.from_dict b = some o) :
    jLookup b "amount" = some (.num o.amount) ∧
    (∀ q, o.limit = some q → jLookup b "limit" = some (.num q)) ∧
    (∀ q, o.stop = some q → jLookup b "stop" = some (.num q)) ∧
    (o.stop = none → jLookup b "stop" = none ∨ jLookup b "stop" = some .null) := by
  unfold OrderStatusResponse.from_dict at hb
  split at hb
  case _ orderId orderStatus orderType amount creationDate wikifolioSymbol
      executionPrice statusDate reason stop limit h1 h2 h3 h4 h5 h6 h7 h8 h9
      h10 h11 =>
    cases hb
    refine ⟨jNum?_eq_some h4, ?_, ?_, ?_⟩
    · intro q hq
      have hq' : limit = some q := hq
      rw [hq'] at h11
      exact jOptNum?_eq_some_some h11
    · intro q hq
      have hq' : stop = some q := hq
      rw [hq'] at h10
      exact jOptNum?_eq_some_some h10
    · intro hnone
      have hnone' : stop = none := hnone
      rw [hnone'] at h10
      exact jOptNum?_eq_some_none h10
  case _ =>
    exact absurd hb (by simp)

/-- C9 counterexample: the well-formed body `b0` carries the float `0.0` in
its `stop` field; `from_dict` constructs the record, but the
`update_limit_order` body built from that record's mutable fields omits the
`stopPrice` key entirely (`if stopPrice:` is false at `0.0`), so the
serialized `stopPrice` field value is not reproduced. -/
theorem update_order_roundtrip_counterexample :
    OrderStatusResponse.from_dict b0 = some o0 ∧
    o0.stop = some 0 ∧
    jLookup b0 "stop" = some (.num 0) ∧
    jLookup (update_limit_order_data 5 o0.amount d0 o0.stop) "stopPrice"
      = none :=
  ⟨rfl, rfl, rfl, rfl⟩

/-- C9 amended: for every well-formed order-status response body whose
`stop` field is either absent or a nonzero number, constructing the record
with `from_dict` and re-serializing the mutable numeric fields as the
`update_limit_order` request body reproduces the body's JSON field values:
the request's `limitPrice` equals the response's `limit`, `amount` equals
`amount`, and `stopPrice` equals `stop`.  (`validUntilDate` is not part of
the round trip: the record carries no such field, so that value comes fresh
from the caller; and a `stop` of `0.0` is dropped, per the
counterexample.) -/
theorem update_order_roundtrip (b : List (String × Jval))
    (o : OrderStatusResponse) (hb : OrderStatusResponse.from_dict b = some o)
    (lp : ℚ) (hlp : o.limit = some lp)
    (hstop : (o.stop = none ∧ jLookup b "stop" = none) ∨
      (∃ q, o.stop = some q ∧ q ≠ 0))
    (d : Date) :
    jLookup (update_limit_order_data lp o.amount d o.stop) "limitPrice"
      = jLookup b "limit" ∧
    jLookup (update_limit_order_data lp o.amount d o.stop) "amount"
      = jLookup b "amount" ∧
    jLookup (update_limit_order_data lp o.amount d o.stop) "stopPrice"
      = jLookup b "stop" := by
  obtain ⟨hamount, hlimit, hstopsome, hstopnone⟩ := from_dict_fields b o hb
  rcases hstop with ⟨hs0, hbs⟩ | ⟨q, hsq, hq0⟩
  · rw [hs0]
    refine ⟨?_, ?_, ?_⟩
    · rw [hlimit lp hlp]; rfl
    · rw [hamount]; rfl
    · rw [hbs]; rfl
  · have ht : pyTruthy (some q) = true := by simp [pyTruthy, hq0]
    rw [hsq]
    refine ⟨?_, ?_, ?_⟩
    · rw [hlimit lp hlp]
      simp [update_limit_order_data, ht, jLookup]
    · rw [hamount]
      simp [update_limit_order_data, ht, jLookup]
    · rw [hstopsome q hsq]
      simp [update_limit_order_data, ht, jLookup]

/-- C9 witness: the concrete body `b1` (with a nonzero `stop`) round-trips
its `limit`, `amount` and `stop` values into the update body. -/
theorem update_order_roundtrip_witness :
    jLookup (update_limit_order_data 5 o1.amount d0 o1.stop) "limitPrice"
      = jLookup b1 "limit" ∧
    jLookup (update_limit_order_data 5 o1.amount d0 o1.stop) "amount"
      = jLookup b1 "amount" ∧
    jLookup (update_limit_order_data 5 o1.amount d0 o1.stop) "stopPrice"
      = jLookup b1 "stop" :=
  update_order_roundtrip b1 o1 rfl 5 rfl (Or.inr ⟨2, rfl, by decide⟩) d0

end WikifolioAPI
